import Mathlib

/-!
# brandedtoken.js: GCHelper and Staker

A shallow embedding of `lib/helpers/setup/GCHelper.js` and
`lib/helpers/stake/gateway_composer/Staker.js`.

JavaScript values are a small datatype with the language's truthiness, objects
are property lists read last-write-wins, and every call that leaves the helper
(artifact lookup, contract handle construction, transaction submission, console
output) is recorded in a trace, so that "was never issued" and "was issued once,
with these arguments" are statements about a list.
-/

set_option autoImplicit false

namespace BrandedToken

/-! ## JavaScript values and objects -/

/-- A JavaScript value as the helpers see it: the primitives, plus an opaque
reference for anything the helpers only pass along. -/
inductive JSVal where
  | undefined
  | null
  | bool (b : Bool)
  | num (n : Int)
  | nan
  | str (s : String)
  | ref (id : Nat)
  deriving DecidableEq, Repr, Inhabited

/-- JavaScript truthiness: what `!v` and `v || w` test. -/
def JSVal.truthy : JSVal → Bool
  | .undefined => false
  | .null => false
  | .bool b => b
  | .num n => n != 0
  | .nan => false
  | .str s => s != ""
  | .ref _ => true

/-- A plain object: the list of its property writes, oldest first. -/
abbrev Obj := List (String × JSVal)

/-- The value of `o.k`: the latest write to `k`, `undefined` when there is none. -/
def Obj.get (o : Obj) (k : String) : JSVal :=
  match o.reverse.find? (fun kv => kv.1 == k) with
  | some kv => kv.2
  | none => .undefined

/-- Whether `o` has an own property `k`. -/
def Obj.has (o : Obj) (k : String) : Bool :=
  o.any (fun kv => kv.1 == k)

/-- The object after `o.k = v`. -/
def Obj.set (o : Obj) (k : String) (v : JSVal) : Obj :=
  o ++ [(k, v)]

/-- The target after `Object.assign(target, source)`: every property of the
source is written onto the target. -/
def Obj.assign (target source : Obj) : Obj :=
  source.foldl (fun t kv => t.set kv.1 kv.2) target

/-- A thrown or rejected `Error`, identified by its message. -/
structure Error where
  message : String
  deriving DecidableEq, Repr, Inhabited

deriving instance DecidableEq for Except

/-- A transaction receipt: an object with, among others, a `status` field and,
for a contract creation, a `contractAddress` field. -/
abbrev Receipt := Obj

/-! ## GCHelper -/

/-- The constant `ContractName`. -/
def ContractName : String := "GatewayComposer"

/-- `GCHelper.validateSetupConfig(config)`. A config that is `undefined`, `null`
or otherwise falsy is `none`. -/
def validateSetupConfig (config : Option Obj) : Except Error Bool :=
  match config with
  | none => .error ⟨"Mandatory parameter \"config\" missing. "⟩
  | some config =>
    if !(config.get "owner").truthy then
      .error ⟨"Mandatory configuration \"owner\" missing. Set config.owner address"⟩
    else if !(config.get "valueToken").truthy then
      .error ⟨"Mandatory configuration \"valueToken\" missing. Set config.valueToken address"⟩
    else if !(config.get "brandedToken").truthy then
      .error ⟨"Mandatory configuration \"brandedToken\" missing. Set config.brandedToken address"⟩
    else
      .ok true

/-- The contract artifact store (`AbiBinProvider`, an external collaborator):
ABI and bytecode looked up by contract name. -/
structure AbiBinProvider where
  getABI : String → String
  getBIN : String → String

/-- The object `contract.deploy(...)` returns: a contract-creation call, built
from a handle with interface `abi` and default options `handleOptions`, carrying
bytecode `data`, the constructor `arguments` and the second argument `options`
of `contract.deploy`. -/
structure DeployTx where
  abi : String
  handleOptions : Obj
  data : String
  arguments : List JSVal
  options : Obj
  deriving DecidableEq, Repr

/-- How the promise-event returned by `tx.send(...)` settles: it rejects with an
error (the `error` event fires), or the transaction is mined (`transactionHash`
fires, then `receipt`, and the promise resolves with the new contract instance,
whose `options.address` is `instanceAddress`). -/
inductive SendOutcome where
  | rejected (error : Error)
  | mined (transactionHash : String) (receipt : Receipt) (instanceAddress : JSVal)
  deriving DecidableEq, Repr

/-- The chain client (`originWeb3`, an external collaborator). Constructing a
contract handle and building a creation call are pure; the behaviour of a mock
client is what `send` does with the call and the options it is given
(`none` is `send(undefined)`). -/
structure Web3 where
  send : DeployTx → Option Obj → SendOutcome

/-- Everything that leaves the helper, in program order. -/
inductive Event where
  | getABI (contractName : String)
  | getBIN (contractName : String)
  | newContract (abi : String) (address : JSVal) (options : Obj)
  | contractDeploy (data : String) (arguments : List JSVal) (options : Obj)
  | send (tx : DeployTx) (options : Option Obj)
  | log (label : String) (value : JSVal)
  | logError (error : Error)
  deriving DecidableEq, Repr

/-- The fields of a `GCHelper` instance. A helper constructed without a chain
client has `originWeb3 = none`. -/
structure GCHelper where
  originWeb3 : Option Web3
  address : JSVal
  abiBinProvider : AbiBinProvider

/-- What a call on a `GCHelper` leaves behind: its result (a thrown error or a
rejected promise is `.error`), the helper afterwards, and the trace. -/
structure Outcome (α : Type) where
  result : Except Error α
  helper : GCHelper
  trace : List Event

/-- The `TypeError` of reading a property of `undefined`. -/
def typeError (property : String) : Error :=
  ⟨"Cannot read property \"" ++ property ++ "\" of undefined"⟩

/-- `GCHelper._deployRawTx(owner, valueToken, brandedToken, txOptions, originWeb3)`:
the creation call and the client it belongs to, with the trace of building it. -/
def _deployRawTx (oThis : GCHelper) (owner valueToken brandedToken : JSVal)
    (txOptions : Option Obj) (originWeb3 : Option Web3) :
    Except Error (DeployTx × Web3) × List Event :=
  let abiBinProvider := oThis.abiBinProvider
  let abi := abiBinProvider.getABI ContractName
  let bin := abiBinProvider.getBIN ContractName
  let defaultOptions : Obj := [("gas", .str "7500000")]
  let defaultOptions :=
    match txOptions with
    | some txOptions => Obj.assign defaultOptions txOptions
    | none => defaultOptions
  let txOptions := defaultOptions
  let args := [owner, valueToken, brandedToken]
  match originWeb3 with
  | none => (.error (typeError "eth"), [.getABI ContractName, .getBIN ContractName])
  | some web3 =>
    (.ok (⟨abi, txOptions, bin, args, txOptions⟩, web3),
      [.getABI ContractName, .getBIN ContractName,
       .newContract abi .null txOptions,
       .contractDeploy bin args txOptions])

/-- `GCHelper.deploy(owner, valueToken, brandedToken, txOptions, originWeb3)`.
The call is sent with the `txOptions` the caller passed, not with the merged
options of `_deployRawTx`, which are local to that method. -/
def deploy (oThis : GCHelper) (owner valueToken brandedToken : JSVal)
    (txOptions : Option Obj) (originWeb3 : Option Web3) : Outcome Receipt :=
  let originWeb3 := originWeb3 <|> oThis.originWeb3
  match _deployRawTx oThis owner valueToken brandedToken txOptions originWeb3 with
  | (.error e, built) => ⟨.error e, oThis, built⟩
  | (.ok (tx, web3), built) =>
    match web3.send tx txOptions with
    | .rejected error =>
      ⟨.error error, oThis, built ++ [.send tx txOptions, .logError error]⟩
    | .mined transactionHash receipt instanceAddress =>
      ⟨.ok receipt, { oThis with address := instanceAddress },
        built ++ [.send tx txOptions,
          .log "\t - transaction hash:" (.str transactionHash),
          .log "\t - GatewayComposer Contract Address:" instanceAddress]⟩

/-- `GCHelper.setup(config, txOptions, originWeb3)`. -/
def setup (oThis : GCHelper) (config : Option Obj) (txOptions : Option Obj)
    (originWeb3 : Option Web3) : Outcome Receipt :=
  let originWeb3 := originWeb3 <|> oThis.originWeb3
  match validateSetupConfig config with
  | .error e => ⟨.error e, oThis, []⟩
  | .ok _ =>
    let txOptions : Obj :=
      match txOptions with
      | none => []
      | some txOptions => txOptions
    match config with
    | none => ⟨.error (typeError "deployer"), oThis, []⟩
    | some config =>
      let deployParams := (Obj.assign [] txOptions).set "from" (config.get "deployer")
      let owner := config.get "owner"
      let valueToken := config.get "valueToken"
      let brandedToken := config.get "brandedToken"
      deploy oThis owner valueToken brandedToken (some deployParams) originWeb3

/-! ## Staker -/

/-- The fields of a `Staker` instance; the helper only passes them along. -/
structure Staker where
  originWeb3 : JSVal
  valueToken : JSVal
  brandedToken : JSVal
  gatewayComposer : JSVal
  deriving DecidableEq, Repr

/-- The arguments of `StakeHelper.approveForValueToken`, in call order. -/
structure ApproveArgs where
  valueToken : JSVal
  valueTokenAbi : JSVal
  amountInWei : JSVal
  originWeb3 : JSVal
  txOptions : Option Obj
  deriving DecidableEq, Repr

/-- The arguments of `StakeHelper.requestStake`, in call order. -/
structure RequestStakeArgs where
  owner : JSVal
  stakeVTAmountInWei : JSVal
  mintBTAmountInWei : JSVal
  gatewayAddress : JSVal
  gasPrice : JSVal
  gasLimit : JSVal
  beneficiary : JSVal
  stakerGatewayNonce : JSVal
  originWeb3 : JSVal
  txOptions : Option Obj
  deriving DecidableEq, Repr

/-- The `StakeHelper` module with its chain client (external to `Staker.js`):
each of its two asynchronous methods either resolves with a receipt or rejects
with an error. The first three arguments are those of its constructor. -/
structure StakeHelper where
  approveForValueToken : JSVal → JSVal → JSVal → ApproveArgs → Except Error Receipt
  requestStake : JSVal → JSVal → JSVal → RequestStakeArgs → Except Error Receipt

/-- Everything that leaves `Staker.requestStake`, in program order. -/
inductive StakeEvent where
  | newStakeHelper (originWeb3 brandedToken gatewayComposer : JSVal)
  | approveForValueToken (args : ApproveArgs)
  | requestStake (args : RequestStakeArgs)
  | log (label : String) (value : JSVal)
  deriving DecidableEq, Repr

/-- The pair of statuses a stake request reports, as the spec names it. -/
structure StakeRequestResult where
  approveStatus : JSVal
  requestStakeStatus : JSVal
  deriving DecidableEq, Repr

/-- What `Staker.requestStake` leaves behind. The method has no `return`
statement, so a resolved promise carries `undefined`: `none`. -/
structure StakeOutcome where
  result : Except Error (Option StakeRequestResult)
  trace : List StakeEvent
  deriving DecidableEq, Repr

/-- `Staker.requestStake(valueTokenAbi, owner, stakeVTAmountInWei,
mintBTAmountInWei, gatewayAddress, gasPrice, gasLimit, beneficiary,
stakerGatewayNonce, txOptions)`. -/
def Staker.requestStake (oThis : Staker) (stakeHelper : StakeHelper)
    (valueTokenAbi owner stakeVTAmountInWei mintBTAmountInWei gatewayAddress
      gasPrice gasLimit beneficiary stakerGatewayNonce : JSVal)
    (txOptions : Option Obj) : StakeOutcome :=
  let created := StakeEvent.newStakeHelper
    oThis.originWeb3 oThis.brandedToken oThis.gatewayComposer
  let approveArgs : ApproveArgs :=
    ⟨oThis.valueToken, valueTokenAbi, stakeVTAmountInWei, oThis.originWeb3, txOptions⟩
  match stakeHelper.approveForValueToken
      oThis.originWeb3 oThis.brandedToken oThis.gatewayComposer approveArgs with
  | .error e => ⟨.error e, [created, .approveForValueToken approveArgs]⟩
  | .ok approveForValueTokenResult =>
    let approveLog := StakeEvent.log "approveForValueToken status:"
      (approveForValueTokenResult.get "status")
    let stakeArgs : RequestStakeArgs :=
      ⟨owner, stakeVTAmountInWei, mintBTAmountInWei, gatewayAddress, gasPrice,
        gasLimit, beneficiary, stakerGatewayNonce, oThis.originWeb3, txOptions⟩
    match stakeHelper.requestStake
        oThis.originWeb3 oThis.brandedToken oThis.gatewayComposer stakeArgs with
    | .error e =>
      ⟨.error e, [created, .approveForValueToken approveArgs, approveLog,
        .requestStake stakeArgs]⟩
    | .ok requestStakeResult =>
      ⟨.ok none, [created, .approveForValueToken approveArgs, approveLog,
        .requestStake stakeArgs,
        .log "requestStake status:" (requestStakeResult.get "status")]⟩

/-! ## The spec's vocabulary -/

/-- The fields `validateConfig` checks, in the order the spec gives. -/
def requiredFields : List String := ["owner", "valueToken", "brandedToken"]

/-- A field is missing from a config when it is absent or empty: reading it
gives a falsy value (`undefined`, `null`, the empty string, ...). -/
def fieldMissing (config : Obj) (field : String) : Bool :=
  !(config.get field).truthy

/-- The first missing field of a config, in the order owner, valueToken,
brandedToken; `none` when all three are present and non-empty. -/
def firstMissingField (config : Obj) : Option String :=
  requiredFields.find? (fieldMissing config)

/-- The error that names `field` as the missing configuration. -/
def configError (field : String) : Error :=
  ⟨"Mandatory configuration \"" ++ field ++ "\" missing. Set config." ++ field ++ " address"⟩

/-- A config that validation must reject: absent, or with a required field
missing. -/
def configInvalid : Option Obj → Bool
  | none => true
  | some config => (firstMissingField config).isSome

/-- The contract-creation calls of a trace: bytecode and constructor arguments
of each `contract.deploy`. -/
def creationCalls : List Event → List (String × List JSVal)
  | [] => []
  | .contractDeploy data arguments _ :: rest => (data, arguments) :: creationCalls rest
  | _ :: rest => creationCalls rest

/-- The gas field of an options value: `none` when the options are absent or
have no `gas` property. -/
def gasField : Option Obj → Option JSVal
  | none => none
  | some options => if options.has "gas" then some (options.get "gas") else none

/-- The options the contract handle and the creation call of a trace are built
with, in program order. -/
def builtOptions : List Event → List Obj
  | [] => []
  | .newContract _ _ options :: rest => options :: builtOptions rest
  | .contractDeploy _ _ options :: rest => options :: builtOptions rest
  | _ :: rest => builtOptions rest

/-- The options each transaction of a trace is submitted with. -/
def sentOptions : List Event → List (Option Obj)
  | [] => []
  | .send _ options :: rest => options :: sentOptions rest
  | _ :: rest => sentOptions rest

/-- The gas limit the spec expects of a deployment: the caller's when
`txOptions` has a gas field, else the default. -/
def expectedGas : Option Obj → JSVal
  | none => .str "7500000"
  | some txOptions => if txOptions.has "gas" then txOptions.get "gas" else .str "7500000"

/-- Reading `config.field` where the config may be absent. -/
def configField (config : Option Obj) (field : String) : JSVal :=
  match config with
  | none => .undefined
  | some config => config.get field

/-- The spec's round trip: `validateConfig(config)` followed by
`deploy(config.owner, config.valueToken, config.brandedToken, options)`. -/
def validateThenDeploy (oThis : GCHelper) (config : Option Obj) (options : Option Obj)
    (originWeb3 : Option Web3) : Outcome Receipt :=
  match validateSetupConfig config with
  | .error e => ⟨.error e, oThis, []⟩
  | .ok _ =>
    deploy oThis (configField config "owner") (configField config "valueToken")
      (configField config "brandedToken") options originWeb3

/-- The transaction options with the sender set to the deploying address. -/
def withSender (txOptions : Option Obj) (deployer : JSVal) : Obj :=
  (txOptions.getD []).set "from" deployer

/-- The calls `Staker.requestStake` makes on the stake helper, in order. -/
def chainCalls : List StakeEvent → List StakeEvent
  | [] => []
  | .approveForValueToken args :: rest => .approveForValueToken args :: chainCalls rest
  | .requestStake args :: rest => .requestStake args :: chainCalls rest
  | _ :: rest => chainCalls rest

/-- The values `Staker.requestStake` writes to the console, in order. -/
def loggedValues : List StakeEvent → List (String × JSVal)
  | [] => []
  | .log label value :: rest => (label, value) :: loggedValues rest
  | _ :: rest => loggedValues rest

/-! ## Concrete inputs -/

/-- A complete setup config. -/
def sampleConfig : Obj :=
  [("deployer", .str "0xD"), ("owner", .str "0xA"), ("valueToken", .str "0xB"),
   ("brandedToken", .str "0xC")]

/-- A config with owner, valueToken and brandedToken but no deployer. -/
def noDeployerConfig : Obj :=
  [("owner", .str "0xA"), ("valueToken", .str "0xB"), ("brandedToken", .str "0xC")]

/-- A config whose owner and brandedToken are missing. -/
def noOwnerConfig : Obj := [("deployer", .str "0xD"), ("valueToken", .str "0xB")]

/-- The receipt the mock client mines. -/
def sampleReceipt : Receipt := [("status", .bool true), ("contractAddress", .str "0xABC")]

/-- A mock chain client that mines every transaction at address `0xABC`. -/
def mockWeb3 : Web3 := ⟨fun _ _ => .mined "0x1234" sampleReceipt (.str "0xABC")⟩

/-- A mock chain client that, like a real one, rejects a transaction without a
sender: neither the options it is sent with nor the defaults of its contract
handle give a `from`. -/
def strictWeb3 : Web3 :=
  ⟨fun tx options =>
    if (configField options "from").truthy || (tx.handleOptions.get "from").truthy then
      .mined "0x1234" sampleReceipt (.str "0xABC")
    else .rejected ⟨"No \"from\" address specified"⟩⟩

/-- A helper on the strict client. -/
def strictHelper : GCHelper :=
  ⟨some strictWeb3, .undefined, ⟨fun name => name ++ ".abi", fun name => name ++ ".bin"⟩⟩

/-- A helper on the mock client that holds an older address. -/
def sampleHelper : GCHelper :=
  ⟨some mockWeb3, .str "0x0LD", ⟨fun name => name ++ ".abi", fun name => name ++ ".bin"⟩⟩

/-- A staker. -/
def sampleStaker : Staker := ⟨.ref 1, .str "0xB", .str "0xC", .str "0xE"⟩

/-- A mock stake helper: approve is mined with status `s1`, requestStake with
status `s2`. -/
def mockStakeHelper (s1 s2 : JSVal) : StakeHelper :=
  ⟨fun _ _ _ _ => .ok [("status", s1)], fun _ _ _ _ => .ok [("status", s2)]⟩

/-- A mock stake helper whose approve submission is rejected. -/
def approveRejects (e : Error) : StakeHelper :=
  ⟨fun _ _ _ _ => .error e, fun _ _ _ _ => .ok [("status", .bool true)]⟩

/-- A mock stake helper whose approve is mined and whose requestStake
submission is rejected. -/
def requestStakeRejects (e : Error) : StakeHelper :=
  ⟨fun _ _ _ _ => .ok [("status", .bool true)], fun _ _ _ _ => .error e⟩

/-! ## Objects -/

theorem Obj.assign_eq_append (target source : Obj) :
    Obj.assign target source = target ++ source := by
  induction source generalizing target with
  | nil => simp [Obj.assign]
  | cons kv rest ih =>
    have := ih (target.set kv.1 kv.2)
    simp only [Obj.assign, List.foldl_cons] at this ⊢
    rw [this]
    simp [Obj.set]

theorem Obj.get_append (target source : Obj) (k : String) :
    Obj.get (target ++ source) k =
      if Obj.has source k then Obj.get source k else Obj.get target k := by
  induction source using List.reverseRecOn with
  | nil => simp [Obj.has]
  | append_singleton rest kv ih =>
    by_cases hk : kv.1 = k
    · simp [Obj.get, Obj.has, hk, List.find?]
    · have hb : (kv.1 == k) = false := by simpa using hk
      simp only [Obj.get, Obj.has, List.any_append, List.any_cons, List.any_nil, hb,
        Bool.or_false, ← List.append_assoc, List.reverse_append, List.reverse_cons,
        List.reverse_nil, List.nil_append, List.singleton_append, List.find?, Bool.false_eq_true] at ih ⊢
      simpa [List.reverse_append] using ih

theorem Option.orElse_orElse_self {α : Type} (a b : Option α) :
    ((a <|> b) <|> b) = (a <|> b) := by
  cases a <;> cases b <;> rfl

/-! ## GCHelper: validation -/

theorem configError_owner : configError "owner" =
    ⟨"Mandatory configuration \"owner\" missing. Set config.owner address"⟩ := by decide

theorem configError_valueToken : configError "valueToken" =
    ⟨"Mandatory configuration \"valueToken\" missing. Set config.valueToken address"⟩ := by
  decide

theorem configError_brandedToken : configError "brandedToken" =
    ⟨"Mandatory configuration \"brandedToken\" missing. Set config.brandedToken address"⟩ := by
  decide

theorem validateSetupConfig_eq (config : Obj) :
    validateSetupConfig (some config) =
      match firstMissingField config with
      | none => .ok true
      | some field => .error (configError field) := by
  simp only [validateSetupConfig, firstMissingField, requiredFields, fieldMissing, List.find?,
    configError_owner, configError_valueToken, configError_brandedToken]
  cases (config.get "owner").truthy <;> cases (config.get "valueToken").truthy <;>
    cases (config.get "brandedToken").truthy <;> rfl

theorem firstMissingField_eq_none (config : Obj) :
    firstMissingField config = none ↔
      (config.get "owner").truthy = true ∧ (config.get "valueToken").truthy = true ∧
        (config.get "brandedToken").truthy = true := by
  simp only [firstMissingField, requiredFields, fieldMissing, List.find?]
  cases (config.get "owner").truthy <;> cases (config.get "valueToken").truthy <;>
    cases (config.get "brandedToken").truthy <;> simp

theorem validateSetupConfig_invalid (config : Option Obj) (h : configInvalid config = true) :
    ∃ e, validateSetupConfig config = .error e := by
  cases config with
  | none => exact ⟨_, rfl⟩
  | some c =>
    rw [validateSetupConfig_eq]
    cases hm : firstMissingField c with
    | none => simp [configInvalid, hm] at h
    | some field => exact ⟨_, rfl⟩

/-- C1: for every non-null config object, `validateSetupConfig` is decided by the
first missing field in the order owner, valueToken, brandedToken: with none
missing (all three present and non-empty) it returns true, otherwise it throws
the error naming exactly that field; it never returns false. A field is missing
exactly when it is absent, or, for an address string, empty. -/
theorem validateSetupConfig_first_missing (config : Obj) :
    (validateSetupConfig (some config) =
      match firstMissingField config with
      | none => .ok true
      | some field => .error (configError field)) ∧
    validateSetupConfig (some config) ≠ .ok false ∧
    (validateSetupConfig (some config) = .ok true ↔
      (config.get "owner").truthy = true ∧ (config.get "valueToken").truthy = true ∧
        (config.get "brandedToken").truthy = true) ∧
    (∀ field, config.has field = false → fieldMissing config field = true) ∧
    (∀ field s, config.get field = .str s → (fieldMissing config field = true ↔ s = "")) := by
  refine ⟨validateSetupConfig_eq config, ?_, ?_, ?_, ?_⟩
  · rw [validateSetupConfig_eq]
    cases firstMissingField config <;> simp
  · rw [validateSetupConfig_eq, ← firstMissingField_eq_none]
    cases firstMissingField config <;> simp
  · intro field hf
    have := Obj.get_append [] config field
    simp only [List.nil_append, hf, Bool.false_eq_true, if_false] at this
    rw [fieldMissing, this]
    rfl
  · intro field s hs
    simp [fieldMissing, hs, JSVal.truthy]

/-! ## GCHelper: deployment -/

theorem deploy_of_client (oThis : GCHelper) (owner valueToken brandedToken : JSVal)
    (txOptions : Option Obj) (originWeb3 : Option Web3) (web3 : Web3)
    (hclient : (originWeb3 <|> oThis.originWeb3) = some web3) :
    ∃ options tx,
      options = (match txOptions with
        | some t => [("gas", JSVal.str "7500000")] ++ t
        | none => [("gas", JSVal.str "7500000")]) ∧
      tx = (⟨oThis.abiBinProvider.getABI ContractName, options,
        oThis.abiBinProvider.getBIN ContractName, [owner, valueToken, brandedToken],
        options⟩ : DeployTx) ∧
      deploy oThis owner valueToken brandedToken txOptions originWeb3 =
        match web3.send tx txOptions with
        | .rejected error =>
          ⟨.error error, oThis,
            [.getABI ContractName, .getBIN ContractName, .newContract tx.abi .null options,
              .contractDeploy tx.data tx.arguments options, .send tx txOptions,
              .logError error]⟩
        | .mined transactionHash receipt instanceAddress =>
          ⟨.ok receipt, { oThis with address := instanceAddress },
            [.getABI ContractName, .getBIN ContractName, .newContract tx.abi .null options,
              .contractDeploy tx.data tx.arguments options, .send tx txOptions,
              .log "\t - transaction hash:" (.str transactionHash),
              .log "\t - GatewayComposer Contract Address:" instanceAddress]⟩ := by
  refine ⟨_, _, rfl, rfl, ?_⟩
  simp only [deploy, _deployRawTx, hclient]
  cases txOptions <;> simp only [Obj.assign_eq_append] <;>
    cases web3.send _ _ <;> rfl

theorem setup_of_valid (oThis : GCHelper) (config : Obj) (txOptions : Option Obj)
    (originWeb3 : Option Web3) (hvalid : firstMissingField config = none) :
    setup oThis (some config) txOptions originWeb3 =
      deploy oThis (config.get "owner") (config.get "valueToken") (config.get "brandedToken")
        (some (withSender txOptions (config.get "deployer"))) originWeb3 := by
  have hv : validateSetupConfig (some config) = .ok true := by
    rw [validateSetupConfig_eq, hvalid]
  have hd : ∀ params, deploy oThis (config.get "owner") (config.get "valueToken")
      (config.get "brandedToken") params (originWeb3 <|> oThis.originWeb3) =
      deploy oThis (config.get "owner") (config.get "valueToken")
        (config.get "brandedToken") params originWeb3 := by
    intro params
    simp only [deploy, Option.orElse_orElse_self]
  simp only [setup, hv, hd, Obj.assign_eq_append, List.nil_append, withSender]
  cases txOptions <;> rfl

/-- C2: for every config that is absent or is missing owner, valueToken or
brandedToken, and for every txOptions and chain client, `setup` fails with the
validation error and nothing has left the helper: the trace is empty (no ABI or
bytecode lookup, no contract handle, no creation call, no send) and the stored
address is the one held before. -/
theorem setup_invalid_config_fails_fast (oThis : GCHelper) (config txOptions : Option Obj)
    (originWeb3 : Option Web3) (hinvalid : configInvalid config = true) :
    ∃ e, validateSetupConfig config = .error e ∧
      (setup oThis config txOptions originWeb3).result = .error e ∧
      (setup oThis config txOptions originWeb3).trace = [] ∧
      (setup oThis config txOptions originWeb3).helper.address = oThis.address := by
  obtain ⟨e, he⟩ := validateSetupConfig_invalid config hinvalid
  refine ⟨e, he, ?_, ?_, ?_⟩ <;> simp only [setup, he]

/-- A config without owner and brandedToken: `setup` fails before anything leaves the helper. -/
theorem setup_invalid_config_fails_fast_witness :
    configInvalid (some noOwnerConfig) = true ∧
    ∃ e, validateSetupConfig (some noOwnerConfig) = .error e ∧
      (setup sampleHelper (some noOwnerConfig) none none).result = .error e ∧
      (setup sampleHelper (some noOwnerConfig) none none).trace = [] ∧
      (setup sampleHelper (some noOwnerConfig) none none).helper.address =
        sampleHelper.address :=
  ⟨by decide, setup_invalid_config_fails_fast sampleHelper (some noOwnerConfig) none none
    (by decide)⟩

/-- C3: with a chain client at hand, `setup` on a config whose owner, valueToken
and brandedToken are present builds exactly one contract-creation call, with the
bytecode of the GatewayComposer artifact and the constructor arguments
`[config.owner, config.valueToken, config.brandedToken]`; and `deploy(owner,
valueToken, brandedToken, ...)` builds exactly one, with arguments
`[owner, valueToken, brandedToken]`. -/
theorem setup_deploy_creation_call (oThis : GCHelper) (config : Obj)
    (owner valueToken brandedToken : JSVal) (txOptions : Option Obj)
    (originWeb3 : Option Web3) (web3 : Web3)
    (hpresent : (config.get "owner").truthy = true ∧ (config.get "valueToken").truthy = true ∧
      (config.get "brandedToken").truthy = true)
    (hclient : (originWeb3 <|> oThis.originWeb3) = some web3) :
    creationCalls (setup oThis (some config) txOptions originWeb3).trace =
      [(oThis.abiBinProvider.getBIN "GatewayComposer",
        [config.get "owner", config.get "valueToken", config.get "brandedToken"])] ∧
    creationCalls (deploy oThis owner valueToken brandedToken txOptions originWeb3).trace =
      [(oThis.abiBinProvider.getBIN "GatewayComposer",
        [owner, valueToken, brandedToken])] := by
  have key : ∀ o v b t, creationCalls (deploy oThis o v b t originWeb3).trace =
      [(oThis.abiBinProvider.getBIN "GatewayComposer", [o, v, b])] := by
    intro o v b t
    obtain ⟨options, tx, _, htx, h⟩ := deploy_of_client oThis o v b t originWeb3 web3 hclient
    rw [h, htx]
    cases web3.send _ t <;> rfl
  rw [setup_of_valid oThis config txOptions originWeb3
    ((firstMissingField_eq_none config).2 hpresent)]
  exact ⟨key _ _ _ _, key _ _ _ _⟩

/-- The creation calls of `setup` and `deploy` on the mock client. -/
theorem setup_deploy_creation_call_witness :
    creationCalls (setup sampleHelper (some sampleConfig) none none).trace =
      [("GatewayComposer.bin", [.str "0xA", .str "0xB", .str "0xC"])] ∧
    creationCalls
      (deploy sampleHelper (.str "0x1") (.str "0x2") (.str "0x3") none none).trace =
      [("GatewayComposer.bin", [.str "0x1", .str "0x2", .str "0x3"])] :=
  setup_deploy_creation_call sampleHelper sampleConfig (.str "0x1") (.str "0x2") (.str "0x3")
    none none mockWeb3 (by decide) rfl

/-- C4, as stated, fails: `deploy` without txOptions builds the handle and the
creation call with gas `"7500000"`, but submits with `send(undefined)`, options
that have no gas field at all. -/
theorem deploy_sent_gas_counterexample :
    (sentOptions
      (deploy sampleHelper (.str "0xA") (.str "0xB") (.str "0xC") none none).trace).map
        gasField = [none] ∧
    (builtOptions
      (deploy sampleHelper (.str "0xA") (.str "0xB") (.str "0xC") none none).trace).map
        (fun options => gasField (some options)) =
      [some (.str "7500000"), some (.str "7500000")] ∧
    expectedGas none = .str "7500000" := by
  decide

/-- C4, amended: with a chain client at hand, `deploy` builds the contract handle
and the contract-creation call with one options object whose gas field is
`txOptions.gas` when the caller supplies txOptions with a gas field and
the default `"7500000"` otherwise, every caller-supplied field taking precedence;
the transaction is submitted with the caller's `txOptions` as given, so the
options of `send` carry a gas field only when the caller supplied one. -/
theorem deploy_gas (oThis : GCHelper) (owner valueToken brandedToken : JSVal)
    (txOptions : Option Obj) (originWeb3 : Option Web3) (web3 : Web3)
    (hclient : (originWeb3 <|> oThis.originWeb3) = some web3) :
    ∃ options,
      builtOptions (deploy oThis owner valueToken brandedToken txOptions originWeb3).trace =
        [options, options] ∧
      gasField (some options) = some (expectedGas txOptions) ∧
      (∀ (t : Obj) (k : String), txOptions = some t → t.has k = true →
        options.get k = t.get k) ∧
      sentOptions (deploy oThis owner valueToken brandedToken txOptions originWeb3).trace =
        [txOptions] := by
  obtain ⟨options, tx, hopt, htx, h⟩ :=
    deploy_of_client oThis owner valueToken brandedToken txOptions originWeb3 web3 hclient
  refine ⟨options, ?_, ?_, ?_, ?_⟩
  · rw [h]
    cases web3.send tx txOptions <;> rfl
  · cases txOptions with
    | none => subst hopt; rfl
    | some t =>
      have hget := Obj.get_append [("gas", JSVal.str "7500000")] t "gas"
      have hhas : Obj.has ([("gas", JSVal.str "7500000")] ++ t) "gas" = true := by
        simp [Obj.has]
      simp only at hopt
      subst hopt
      simp only [gasField, hhas, if_true, hget, expectedGas]
      cases ht : Obj.has t "gas"
      · rfl
      · rfl
  · intro t k ht hk
    subst ht
    simp only at hopt
    subst hopt
    rw [Obj.get_append, hk, if_pos rfl]
  · rw [h]
    cases web3.send tx txOptions <;> rfl

/-- A caller-supplied gas of 21000 reaches the handle, the creation call and `send`. -/
theorem deploy_gas_witness :
    ∃ options,
      builtOptions (deploy sampleHelper (.str "0xA") (.str "0xB") (.str "0xC")
        (some [("gas", .num 21000)]) none).trace = [options, options] ∧
      gasField (some options) = some (expectedGas (some [("gas", .num 21000)])) ∧
      (∀ (t : Obj) (k : String), some [("gas", JSVal.num 21000)] = some t →
        t.has k = true → options.get k = t.get k) ∧
      sentOptions (deploy sampleHelper (.str "0xA") (.str "0xB") (.str "0xC")
        (some [("gas", .num 21000)]) none).trace = [some [("gas", .num 21000)]] :=
  deploy_gas sampleHelper (.str "0xA") (.str "0xB") (.str "0xC")
    (some [("gas", .num 21000)]) none mockWeb3 rfl

/-- C5: for a mock chain client whose `send` is mined with receipt `receipt` and
a contract instance at address `A`, `deploy` resolves to that receipt (whose
contract address is `A` when the receipt records it) and the helper's stored
address is `A` afterwards, whatever it held before. -/
theorem deploy_stores_address (oThis : GCHelper) (owner valueToken brandedToken : JSVal)
    (txOptions : Option Obj) (originWeb3 : Option Web3) (web3 : Web3)
    (transactionHash : String) (receipt : Receipt) (A : JSVal)
    (hclient : (originWeb3 <|> oThis.originWeb3) = some web3)
    (hmined : ∀ tx options, web3.send tx options = .mined transactionHash receipt A) :
    (deploy oThis owner valueToken brandedToken txOptions originWeb3).result = .ok receipt ∧
    (deploy oThis owner valueToken brandedToken txOptions originWeb3).helper.address = A ∧
    (receipt.get "contractAddress" = A →
      ∃ r, (deploy oThis owner valueToken brandedToken txOptions originWeb3).result = .ok r ∧
        r.get "contractAddress" = A) := by
  obtain ⟨options, tx, _, _, h⟩ :=
    deploy_of_client oThis owner valueToken brandedToken txOptions originWeb3 web3 hclient
  rw [h, hmined]
  exact ⟨rfl, rfl, fun hr => ⟨receipt, rfl, hr⟩⟩

/-- On the mock client `deploy` replaces the older address by `0xABC`. -/
theorem deploy_stores_address_witness :
    sampleHelper.address = .str "0x0LD" ∧
    (deploy sampleHelper (.str "0xA") (.str "0xB") (.str "0xC") none none).result =
      .ok sampleReceipt ∧
    (deploy sampleHelper (.str "0xA") (.str "0xB") (.str "0xC") none none).helper.address =
      .str "0xABC" ∧
    (sampleReceipt.get "contractAddress" = .str "0xABC" →
      ∃ r, (deploy sampleHelper (.str "0xA") (.str "0xB") (.str "0xC") none none).result =
          .ok r ∧
        r.get "contractAddress" = .str "0xABC") :=
  ⟨rfl, deploy_stores_address sampleHelper (.str "0xA") (.str "0xB") (.str "0xC") none none
    mockWeb3 "0x1234" sampleReceipt (.str "0xABC") rfl (fun _ _ => rfl)⟩

/-- C6, as stated, fails: on a valid config and no txOptions, `setup` submits with
`{from: config.deployer}` while `validateConfig` followed by `deploy(config.owner,
config.valueToken, config.brandedToken, txOptions)` submits with `undefined`;
on a client that insists on a sender the first is mined and the second
rejected. -/
theorem setup_round_trip_counterexample :
    sentOptions (setup sampleHelper (some sampleConfig) none none).trace =
      [some [("from", .str "0xD")]] ∧
    sentOptions (validateThenDeploy sampleHelper (some sampleConfig) none none).trace =
      [none] ∧
    (setup strictHelper (some sampleConfig) none none).result = .ok sampleReceipt ∧
    (validateThenDeploy strictHelper (some sampleConfig) none none).result =
      .error ⟨"No \"from\" address specified"⟩ := by
  decide

/-- C6, amended: for every config, txOptions and chain client,
`setup(config, txOptions)` is `validateSetupConfig(config)` followed by
`deploy(config.owner, config.valueToken, config.brandedToken, deployParams)`,
where `deployParams` is a copy of txOptions (an empty object when txOptions is
absent) with `from` set to `config.deployer`: the same error, the same trace
(creation call and submitted options), the same result and the same helper
afterwards. -/
theorem setup_eq_validateThenDeploy (oThis : GCHelper) (config txOptions : Option Obj)
    (originWeb3 : Option Web3) :
    setup oThis config txOptions originWeb3 =
      validateThenDeploy oThis config
        (some (withSender txOptions (configField config "deployer"))) originWeb3 := by
  cases config with
  | none => rfl
  | some c =>
    cases hm : firstMissingField c with
    | none =>
      have hv : validateSetupConfig (some c) = .ok true := by
        rw [validateSetupConfig_eq, hm]
      rw [setup_of_valid oThis c txOptions originWeb3 hm]
      simp only [validateThenDeploy, hv, configField]
    | some field =>
      have hv : validateSetupConfig (some c) = .error (configError field) := by
        rw [validateSetupConfig_eq, hm]
      simp only [setup, validateThenDeploy, hv]

/-- C10, as stated, fails: a config with owner, valueToken and brandedToken but no
deployer passes validation; the creation call is built and the transaction is
submitted, with `from` undefined, and mined. -/
theorem setup_no_deployer_counterexample :
    noDeployerConfig.has "deployer" = false ∧
    validateSetupConfig (some noDeployerConfig) = .ok true ∧
    creationCalls (setup sampleHelper (some noDeployerConfig) none none).trace =
      [("GatewayComposer.bin", [.str "0xA", .str "0xB", .str "0xC"])] ∧
    sentOptions (setup sampleHelper (some noDeployerConfig) none none).trace =
      [some [("from", .undefined)]] ∧
    (setup sampleHelper (some noDeployerConfig) none none).result = .ok sampleReceipt := by
  decide

/-- C10, amended: `setup` validates three fields. For every config in which
owner, valueToken or brandedToken is absent or empty (or that is absent itself)
it fails with the validation error and nothing leaves the helper. The deployer
is not validated: with the three present and a chain client at hand, `setup`
builds the creation call and submits it with `from` set to `config.deployer`,
whatever that value is. -/
theorem setup_validates_three_fields (oThis : GCHelper) (config txOptions : Option Obj)
    (originWeb3 : Option Web3) :
    (configInvalid config = true →
      ∃ e, (setup oThis config txOptions originWeb3).result = .error e ∧
        (setup oThis config txOptions originWeb3).trace = []) ∧
    (∀ c web3, config = some c → firstMissingField c = none →
      (originWeb3 <|> oThis.originWeb3) = some web3 →
      creationCalls (setup oThis config txOptions originWeb3).trace =
        [(oThis.abiBinProvider.getBIN "GatewayComposer",
          [c.get "owner", c.get "valueToken", c.get "brandedToken"])] ∧
      sentOptions (setup oThis config txOptions originWeb3).trace =
        [some (withSender txOptions (c.get "deployer"))]) := by
  constructor
  · intro hinvalid
    obtain ⟨e, he⟩ := validateSetupConfig_invalid config hinvalid
    exact ⟨e, by simp only [setup, he], by simp only [setup, he]⟩
  · intro c web3 hc hm hclient
    subst hc
    rw [setup_of_valid oThis c txOptions originWeb3 hm]
    obtain ⟨options, tx, _, htx, h⟩ := deploy_of_client oThis (c.get "owner")
      (c.get "valueToken") (c.get "brandedToken")
      (some (withSender txOptions (c.get "deployer"))) originWeb3 web3 hclient
    rw [h, htx]
    cases web3.send _ _ <;> exact ⟨rfl, rfl⟩

/-- A config without owner is rejected; one without deployer is sent with `from` undefined. -/
theorem setup_validates_three_fields_witness :
    (∃ e, (setup sampleHelper (some noOwnerConfig) none none).result = .error e ∧
      (setup sampleHelper (some noOwnerConfig) none none).trace = []) ∧
    sentOptions (setup sampleHelper (some noDeployerConfig) none none).trace =
      [some (withSender none (noDeployerConfig.get "deployer"))] :=
  ⟨(setup_validates_three_fields sampleHelper (some noOwnerConfig) none none).1 (by decide),
    ((setup_validates_three_fields sampleHelper (some noDeployerConfig) none none).2
      noDeployerConfig mockWeb3 rfl (by decide) rfl).2⟩

/-! ## Staker -/

/-- C7: whenever the approve submission resolves with a receipt, whatever its
status, the calls `Staker.requestStake` makes are exactly two, in this order:
`approveForValueToken` on the staker's value token for `stakeVTAmountInWei`,
then `requestStake` with (owner, stakeVTAmountInWei, mintBTAmountInWei,
gatewayAddress, gasPrice, gasLimit, beneficiary, stakerGatewayNonce), the same
stake amount as the approve. This holds whether the stake request is then mined
or rejected. -/
theorem requestStake_issued_once_after_approve (oThis : Staker) (stakeHelper : StakeHelper)
    (valueTokenAbi owner stakeVTAmountInWei mintBTAmountInWei gatewayAddress gasPrice
      gasLimit beneficiary stakerGatewayNonce : JSVal)
    (txOptions : Option Obj) (receipt : Receipt)
    (happrove : stakeHelper.approveForValueToken oThis.originWeb3 oThis.brandedToken
      oThis.gatewayComposer
      ⟨oThis.valueToken, valueTokenAbi, stakeVTAmountInWei, oThis.originWeb3, txOptions⟩ =
        .ok receipt) :
    chainCalls (oThis.requestStake stakeHelper valueTokenAbi owner stakeVTAmountInWei
      mintBTAmountInWei gatewayAddress gasPrice gasLimit beneficiary stakerGatewayNonce
      txOptions).trace =
    [.approveForValueToken
        ⟨oThis.valueToken, valueTokenAbi, stakeVTAmountInWei, oThis.originWeb3, txOptions⟩,
      .requestStake
        ⟨owner, stakeVTAmountInWei, mintBTAmountInWei, gatewayAddress, gasPrice, gasLimit,
          beneficiary, stakerGatewayNonce, oThis.originWeb3, txOptions⟩] := by
  simp only [Staker.requestStake, happrove]
  cases stakeHelper.requestStake oThis.originWeb3 oThis.brandedToken oThis.gatewayComposer _ <;>
    rfl

/-- After an approve mined with status false the stake request is still issued, once. -/
theorem requestStake_issued_once_after_approve_witness :
    chainCalls (sampleStaker.requestStake (mockStakeHelper (.bool false) (.bool true))
      (.ref 2) (.str "0xA") (.num 100) (.num 50) (.str "0x6") (.num 1) (.num 2)
      (.str "0xBE") (.num 7) none).trace =
    [.approveForValueToken ⟨.str "0xB", .ref 2, .num 100, .ref 1, none⟩,
      .requestStake ⟨.str "0xA", .num 100, .num 50, .str "0x6", .num 1, .num 2,
        .str "0xBE", .num 7, .ref 1, none⟩] :=
  requestStake_issued_once_after_approve sampleStaker
    (mockStakeHelper (.bool false) (.bool true)) (.ref 2) (.str "0xA") (.num 100) (.num 50)
    (.str "0x6") (.num 1) (.num 2) (.str "0xBE") (.num 7) none [("status", .bool false)] rfl

/-- C8, as stated, fails: with approve mined with status false and requestStake
mined with status true, `Staker.requestStake` resolves with no value
(`undefined`), not with a result carrying (false, true); the two statuses are
written to the console. -/
theorem requestStake_returns_counterexample :
    (sampleStaker.requestStake (mockStakeHelper (.bool false) (.bool true))
      (.ref 2) (.str "0xA") (.num 100) (.num 50) (.str "0x6") (.num 1) (.num 2)
      (.str "0xBE") (.num 7) none).result = .ok none ∧
    (sampleStaker.requestStake (mockStakeHelper (.bool false) (.bool true))
      (.ref 2) (.str "0xA") (.num 100) (.num 50) (.str "0x6") (.num 1) (.num 2)
      (.str "0xBE") (.num 7) none).result ≠ .ok (some ⟨.bool false, .bool true⟩) ∧
    loggedValues (sampleStaker.requestStake (mockStakeHelper (.bool false) (.bool true))
      (.ref 2) (.str "0xA") (.num 100) (.num 50) (.str "0x6") (.num 1) (.num 2)
      (.str "0xBE") (.num 7) none).trace =
      [("approveForValueToken status:", .bool false), ("requestStake status:", .bool true)] := by
  decide

/-- C8, amended: when the approve call resolves with a receipt of status `s1` and
the requestStake call with a receipt of status `s2`, `Staker.requestStake`
resolves with no value and writes both statuses to the console unmodified, the
approve status first. -/
theorem requestStake_logs_both_statuses (oThis : Staker) (stakeHelper : StakeHelper)
    (valueTokenAbi owner stakeVTAmountInWei mintBTAmountInWei gatewayAddress gasPrice
      gasLimit beneficiary stakerGatewayNonce : JSVal)
    (txOptions : Option Obj) (approveReceipt stakeReceipt : Receipt)
    (happrove : stakeHelper.approveForValueToken oThis.originWeb3 oThis.brandedToken
      oThis.gatewayComposer
      ⟨oThis.valueToken, valueTokenAbi, stakeVTAmountInWei, oThis.originWeb3, txOptions⟩ =
        .ok approveReceipt)
    (hstake : stakeHelper.requestStake oThis.originWeb3 oThis.brandedToken
      oThis.gatewayComposer
      ⟨owner, stakeVTAmountInWei, mintBTAmountInWei, gatewayAddress, gasPrice, gasLimit,
        beneficiary, stakerGatewayNonce, oThis.originWeb3, txOptions⟩ = .ok stakeReceipt) :
    (oThis.requestStake stakeHelper valueTokenAbi owner stakeVTAmountInWei
      mintBTAmountInWei gatewayAddress gasPrice gasLimit beneficiary stakerGatewayNonce
      txOptions).result = .ok none ∧
    loggedValues (oThis.requestStake stakeHelper valueTokenAbi owner stakeVTAmountInWei
      mintBTAmountInWei gatewayAddress gasPrice gasLimit beneficiary stakerGatewayNonce
      txOptions).trace =
      [("approveForValueToken status:", approveReceipt.get "status"),
        ("requestStake status:", stakeReceipt.get "status")] := by
  simp only [Staker.requestStake, happrove, hstake, true_and]
  rfl

/-- Statuses false and true are logged in that order and nothing is returned. -/
theorem requestStake_logs_both_statuses_witness :
    (sampleStaker.requestStake (mockStakeHelper (.bool false) (.bool true))
      (.ref 2) (.str "0xA") (.num 100) (.num 50) (.str "0x6") (.num 1) (.num 2)
      (.str "0xBE") (.num 7) none).result = .ok none ∧
    loggedValues (sampleStaker.requestStake (mockStakeHelper (.bool false) (.bool true))
      (.ref 2) (.str "0xA") (.num 100) (.num 50) (.str "0x6") (.num 1) (.num 2)
      (.str "0xBE") (.num 7) none).trace =
      [("approveForValueToken status:", Obj.get [("status", .bool false)] "status"),
        ("requestStake status:", Obj.get [("status", .bool true)] "status")] :=
  requestStake_logs_both_statuses sampleStaker (mockStakeHelper (.bool false) (.bool true))
    (.ref 2) (.str "0xA") (.num 100) (.num 50) (.str "0x6") (.num 1) (.num 2) (.str "0xBE")
    (.num 7) none [("status", .bool false)] [("status", .bool true)] rfl rfl

/-- C9: when the approve submission is rejected with an error `e`,
`Staker.requestStake` fails with exactly `e` and its only call is the approve:
requestStake is never issued. When approve resolves and the requestStake
submission is rejected with `e`, it fails with exactly `e`, and the rejected
requestStake call is the last thing it does: no further call follows. -/
theorem requestStake_propagates_rejection (oThis : Staker) (stakeHelper : StakeHelper)
    (valueTokenAbi owner stakeVTAmountInWei mintBTAmountInWei gatewayAddress gasPrice
      gasLimit beneficiary stakerGatewayNonce : JSVal)
    (txOptions : Option Obj) (e : Error) :
    (stakeHelper.approveForValueToken oThis.originWeb3 oThis.brandedToken
        oThis.gatewayComposer
        ⟨oThis.valueToken, valueTokenAbi, stakeVTAmountInWei, oThis.originWeb3, txOptions⟩ =
          .error e →
      (oThis.requestStake stakeHelper valueTokenAbi owner stakeVTAmountInWei
        mintBTAmountInWei gatewayAddress gasPrice gasLimit beneficiary stakerGatewayNonce
        txOptions).result = .error e ∧
      chainCalls (oThis.requestStake stakeHelper valueTokenAbi owner stakeVTAmountInWei
        mintBTAmountInWei gatewayAddress gasPrice gasLimit beneficiary stakerGatewayNonce
        txOptions).trace =
        [.approveForValueToken
          ⟨oThis.valueToken, valueTokenAbi, stakeVTAmountInWei, oThis.originWeb3,
            txOptions⟩]) ∧
    (∀ receipt,
      stakeHelper.approveForValueToken oThis.originWeb3 oThis.brandedToken
        oThis.gatewayComposer
        ⟨oThis.valueToken, valueTokenAbi, stakeVTAmountInWei, oThis.originWeb3, txOptions⟩ =
          .ok receipt →
      stakeHelper.requestStake oThis.originWeb3 oThis.brandedToken oThis.gatewayComposer
        ⟨owner, stakeVTAmountInWei, mintBTAmountInWei, gatewayAddress, gasPrice, gasLimit,
          beneficiary, stakerGatewayNonce, oThis.originWeb3, txOptions⟩ = .error e →
      (oThis.requestStake stakeHelper valueTokenAbi owner stakeVTAmountInWei
        mintBTAmountInWei gatewayAddress gasPrice gasLimit beneficiary stakerGatewayNonce
        txOptions).result = .error e ∧
      ∃ before,
        (oThis.requestStake stakeHelper valueTokenAbi owner stakeVTAmountInWei
          mintBTAmountInWei gatewayAddress gasPrice gasLimit beneficiary stakerGatewayNonce
          txOptions).trace =
          before ++ [.requestStake
            ⟨owner, stakeVTAmountInWei, mintBTAmountInWei, gatewayAddress, gasPrice,
              gasLimit, beneficiary, stakerGatewayNonce, oThis.originWeb3, txOptions⟩] ∧
        chainCalls before =
          [.approveForValueToken
            ⟨oThis.valueToken, valueTokenAbi, stakeVTAmountInWei, oThis.originWeb3,
              txOptions⟩]) := by
  constructor
  · intro happrove
    simp only [Staker.requestStake, happrove, true_and]
    rfl
  · intro receipt happrove hstake
    simp only [Staker.requestStake, happrove, hstake, true_and]
    exact ⟨[_, _, _], rfl, rfl⟩

/-- A rejected approve and a rejected stake request both surface their own error. -/
theorem requestStake_propagates_rejection_witness :
    ((sampleStaker.requestStake (approveRejects ⟨"connection refused"⟩)
        (.ref 2) (.str "0xA") (.num 100) (.num 50) (.str "0x6") (.num 1) (.num 2)
        (.str "0xBE") (.num 7) none).result = .error ⟨"connection refused"⟩ ∧
      chainCalls (sampleStaker.requestStake (approveRejects ⟨"connection refused"⟩)
        (.ref 2) (.str "0xA") (.num 100) (.num 50) (.str "0x6") (.num 1) (.num 2)
        (.str "0xBE") (.num 7) none).trace =
        [.approveForValueToken ⟨.str "0xB", .ref 2, .num 100, .ref 1, none⟩]) ∧
    (sampleStaker.requestStake (requestStakeRejects ⟨"nonce too low"⟩)
      (.ref 2) (.str "0xA") (.num 100) (.num 50) (.str "0x6") (.num 1) (.num 2)
      (.str "0xBE") (.num 7) none).result = .error ⟨"nonce too low"⟩ :=
  ⟨(requestStake_propagates_rejection sampleStaker (approveRejects ⟨"connection refused"⟩)
      (.ref 2) (.str "0xA") (.num 100) (.num 50) (.str "0x6") (.num 1) (.num 2)
      (.str "0xBE") (.num 7) none ⟨"connection refused"⟩).1 rfl,
    ((requestStake_propagates_rejection sampleStaker (requestStakeRejects ⟨"nonce too low"⟩)
      (.ref 2) (.str "0xA") (.num 100) (.num 50) (.str "0x6") (.num 1) (.num 2)
      (.str "0xBE") (.num 7) none ⟨"nonce too low"⟩).2 [("status", .bool true)] rfl rfl).1⟩

end BrandedToken
